import Mathlib

/-!
Verification of the vsync distribution scheduler
(services/surfaceflinger/Scheduler/Scheduler.cpp).

The embedding below translates the Scheduler source into Lean:

* the hardware vsync controller (mPrimaryHWVsyncEnabled / mHWVsyncAvailable and the
  operations enableHardwareVsync, disableHardwareVsync, makeHWSyncAvailable,
  addResyncSample, addPresentFence, setVsyncPeriod); calls into the external
  DispSync timing model and the EventControlThread hardware toggle are recorded
  as an explicit trace, and the boolean answers DispSync returns are supplied as
  oracle parameters;
* the connection registry (sNextId, mConnections, createConnection and the
  handle-guarded administrative operations); the int64 counter is modelled with
  explicit two's-complement wraparound;
* the frame pacing analyzer (determineTimestampAverage and
  determineLayerTimestampStats).

Declarations whose doc comment starts with "Modelled from the spec:" correspond
to repository code that is not part of the provided sources (Scheduler.h,
SchedulerUtils.h, LayerHistory); they follow the specification text.
-/

namespace AndroidSched

/-- State of the hardware sync controller: the two booleans guarded by mHWVsyncLock
in the Scheduler (mPrimaryHWVsyncEnabled and mHWVsyncAvailable). -/
structure SchedState where
  mPrimaryHWVsyncEnabled : Bool
  mHWVsyncAvailable : Bool
deriving DecidableEq, Repr

/-- Calls the Scheduler makes into its external collaborators (the DispSync timing
model and the EventControlThread hardware toggle), recorded as an explicit trace so
that theorems can speak about which timestamps and fences were handed over. -/
inductive ExtCall where
  | beginResync
  | endResync
  | setVsyncEnabled (b : Bool)
  | dispAddResyncSample (ts : Int)
  | dispAddPresentFence (fence : Nat)
  | dispReset
  | dispSetPeriod (p : Int)
deriving DecidableEq, Repr

/-- Scheduler enableHardwareVsync: if the hardware vsync is not enabled but is
available, begin a resync on DispSync, turn the interrupt on and record the flag. -/
def enableHardwareVsync (s : SchedState) : SchedState × List ExtCall :=
  if !s.mPrimaryHWVsyncEnabled && s.mHWVsyncAvailable then
    ({ s with mPrimaryHWVsyncEnabled := true }, [.beginResync, .setVsyncEnabled true])
  else
    (s, [])

/-- Scheduler disableHardwareVsync: if enabled, turn the interrupt off and end the
resync; independently, if makeUnavailable is set, clear mHWVsyncAvailable. -/
def disableHardwareVsync (makeUnavailable : Bool) (s : SchedState) :
    SchedState × List ExtCall :=
  let step1 : SchedState × List ExtCall :=
    if s.mPrimaryHWVsyncEnabled then
      ({ s with mPrimaryHWVsyncEnabled := false }, [.setVsyncEnabled false, .endResync])
    else
      (s, [])
  if makeUnavailable then
    ({ step1.1 with mHWVsyncAvailable := false }, step1.2)
  else
    step1

/-- Scheduler makeHWSyncAvailable: writes mHWVsyncAvailable unconditionally. -/
def makeHWSyncAvailable (makeAvailable : Bool) (s : SchedState) : SchedState :=
  { s with mHWVsyncAvailable := makeAvailable }

/-- Scheduler setVsyncPeriod: reset DispSync, set the new period, then call
enableHardwareVsync. -/
def setVsyncPeriod (period : Int) (s : SchedState) : SchedState × List ExtCall :=
  let en := enableHardwareVsync s
  (en.1, [.dispReset, .dispSetPeriod period] ++ en.2)

/-- Scheduler addResyncSample: under the lock, if hardware vsync is enabled the
timestamp is handed to DispSync, whose boolean answer (supplied here as the
needsMore oracle) becomes needsHwVsync; otherwise needsHwVsync stays false.
Outside the lock the answer selects enableHardwareVsync or
disableHardwareVsync false. -/
def addResyncSample (needsMore : Bool) (ts : Int) (s : SchedState) :
    SchedState × List ExtCall :=
  let handed : Bool × List ExtCall :=
    if s.mPrimaryHWVsyncEnabled then (needsMore, [.dispAddResyncSample ts]) else (false, [])
  let next : SchedState × List ExtCall :=
    if handed.1 then enableHardwareVsync s else disableHardwareVsync false s
  (next.1, handed.2 ++ next.2)

/-- Scheduler addPresentFence: the fence is handed to DispSync unconditionally; the
boolean DispSync returns (the needsMore oracle) selects enableHardwareVsync or
disableHardwareVsync false. -/
def addPresentFence (needsMore : Bool) (fence : Nat) (s : SchedState) :
    SchedState × List ExtCall :=
  let next : SchedState × List ExtCall :=
    if needsMore then enableHardwareVsync s else disableHardwareVsync false s
  (next.1, [.dispAddPresentFence fence] ++ next.2)

/-- Operations on the hardware sync controller, with the DispSync boolean answers
supplied as data so that a sequence of operations fixes an entire interaction. -/
inductive HWOp where
  | enableHW
  | disableHW (makeUnavailable : Bool)
  | makeAvail (makeAvailable : Bool)
  | resync (needsMore : Bool) (ts : Int)
  | present (needsMore : Bool) (fence : Nat)
  | setPeriod (p : Int)
deriving DecidableEq, Repr

/-- State transition of one controller operation (the trace component dropped). -/
def stepHW (s : SchedState) (op : HWOp) : SchedState :=
  match op with
  | .enableHW => (enableHardwareVsync s).1
  | .disableHW mk => (disableHardwareVsync mk s).1
  | .makeAvail b => makeHWSyncAvailable b s
  | .resync needsMore ts => (addResyncSample needsMore ts s).1
  | .present needsMore fence => (addPresentFence needsMore fence s).1
  | .setPeriod p => (setVsyncPeriod p s).1

/-- Run of a sequence of controller operations. -/
def runHW (ops : List HWOp) (s : SchedState) : SchedState :=
  ops.foldl stepHW s

/-- Initial controller state: the Scheduler constructor sets
mPrimaryHWVsyncEnabled = false and mHWVsyncAvailable = false. -/
def initState : SchedState := ⟨false, false⟩

/-- Claimed invariant of the controller, as a boolean: hwVsyncEnabled implies
hwVsyncAvailable. -/
def hwInvariant (s : SchedState) : Bool :=
  !s.mPrimaryHWVsyncEnabled || s.mHWVsyncAvailable

/-- Reduction of an integer into the value range of a two's-complement int64; this
is the arithmetic the std::atomic int64 counter sNextId performs on overflow. -/
def wrap64 (x : Int) : Int :=
  (x + 9223372036854775808) % 18446744073709551616 - 9223372036854775808

/-- A registry entry: the Scheduler Connection struct owns the handle (carrying its
id), the event connection obtained from the thread at creation, and the thread
itself; the two owned external objects are represented by opaque tokens. -/
structure Connection where
  handleId : Int
  eventConnection : Nat
  threadTok : Nat
deriving DecidableEq, Repr

/-- Registry part of the Scheduler: the static counter sNextId and the
mConnections map, modelled as an association list keyed by the int64 id. -/
structure RegState where
  sNextId : Int
  mConnections : List (Int × Connection)
deriving DecidableEq, Repr

/-- Scheduler createConnection: takes the next id from sNextId (post-increment on
the int64 atomic, hence the wraparound on the stored counter), builds a Connection
around a new handle with that id and the externally constructed event thread and
event connection (passed as tokens), inserts it into mConnections (std::map insert
leaves an existing key untouched) and returns the id of the stored handle. -/
def createConnection (connectionName : String) (phaseOffsetNs : Int)
    (eventConnTok threadTok : Nat) (r : RegState) : Int × RegState :=
  let _ := connectionName
  let _ := phaseOffsetNs
  let id := r.sNextId
  let conns :=
    if (r.mConnections.lookup id).isSome then r.mConnections
    else (id, ⟨id, eventConnTok, threadTok⟩) :: r.mConnections
  (id, { sNextId := wrap64 (r.sNextId + 1), mConnections := conns })

/-- Guard of the RETURN_IF_INVALID macros: the handle is null or its id is not a
key of mConnections. -/
def invalidHandle (r : RegState) (handle : Option Int) : Bool :=
  match handle with
  | none => true
  | some id => (r.mConnections.lookup id).isNone

/-- Administrative calls forwarded to the event thread of the addressed
connection, recorded as explicit effects. -/
inductive AdminEffect where
  | hotplug (threadTok : Nat) (displayType : Int) (connected : Bool)
  | screenAcquired (threadTok : Nat)
  | screenReleased (threadTok : Nat)
  | phaseOffset (threadTok : Nat) (offset : Int)
  | dumpCall (threadTok : Nat)
deriving DecidableEq, Repr

/-- Scheduler createDisplayEventConnection: null result on an invalid handle,
otherwise a fresh event connection made by the addressed thread (represented by
its token). -/
def createDisplayEventConnection (handle : Option Int) (r : RegState) :
    Option Nat × RegState :=
  match handle with
  | none => (none, r)
  | some id =>
    match r.mConnections.lookup id with
    | none => (none, r)
    | some conn => (some conn.threadTok, r)

/-- Scheduler getEventThread: null on an invalid handle, otherwise the thread of
the addressed connection. -/
def getEventThread (handle : Option Int) (r : RegState) : Option Nat × RegState :=
  match handle with
  | none => (none, r)
  | some id =>
    match r.mConnections.lookup id with
    | none => (none, r)
    | some conn => (some conn.threadTok, r)

/-- Scheduler getEventConnection: null on an invalid handle, otherwise the stored
event connection of the addressed connection. -/
def getEventConnection (handle : Option Int) (r : RegState) : Option Nat × RegState :=
  match handle with
  | none => (none, r)
  | some id =>
    match r.mConnections.lookup id with
    | none => (none, r)
    | some conn => (some conn.eventConnection, r)

/-- Scheduler hotplugReceived: no-op on an invalid handle, otherwise forwards the
hotplug notification to the addressed thread. -/
def hotplugReceived (handle : Option Int) (displayType : Int) (connected : Bool)
    (r : RegState) : List AdminEffect × RegState :=
  match handle with
  | none => ([], r)
  | some id =>
    match r.mConnections.lookup id with
    | none => ([], r)
    | some conn => ([.hotplug conn.threadTok displayType connected], r)

/-- Scheduler onScreenAcquired: no-op on an invalid handle, otherwise forwarded. -/
def onScreenAcquired (handle : Option Int) (r : RegState) : List AdminEffect × RegState :=
  match handle with
  | none => ([], r)
  | some id =>
    match r.mConnections.lookup id with
    | none => ([], r)
    | some conn => ([.screenAcquired conn.threadTok], r)

/-- Scheduler onScreenReleased: no-op on an invalid handle, otherwise forwarded. -/
def onScreenReleased (handle : Option Int) (r : RegState) : List AdminEffect × RegState :=
  match handle with
  | none => ([], r)
  | some id =>
    match r.mConnections.lookup id with
    | none => ([], r)
    | some conn => ([.screenReleased conn.threadTok], r)

/-- Scheduler setPhaseOffset: no-op on an invalid handle, otherwise forwarded. -/
def setPhaseOffset (handle : Option Int) (offset : Int) (r : RegState) :
    List AdminEffect × RegState :=
  match handle with
  | none => ([], r)
  | some id =>
    match r.mConnections.lookup id with
    | none => ([], r)
    | some conn => ([.phaseOffset conn.threadTok offset], r)

/-- Scheduler dump with a connection handle: no-op on an invalid handle, otherwise
forwards the dump request to the addressed thread (a const member, so the registry
is untouched either way). -/
def dump (handle : Option Int) (r : RegState) : List AdminEffect × RegState :=
  match handle with
  | none => ([], r)
  | some id =>
    match r.mConnections.lookup id with
    | none => ([], r)
    | some conn => ([.dumpCall conn.threadTok], r)

/-- Operations interleaving connection creation with the hardware enable and
disable calls, as in the monotonic-ids property. -/
inductive RegOp where
  | create (connectionName : String) (phaseOffsetNs : Int) (eventConnTok threadTok : Nat)
  | enableHW
  | disableHW (makeUnavailable : Bool)
  | makeAvail (makeAvailable : Bool)
deriving DecidableEq, Repr

/-- Combined state for registry and controller runs. -/
structure FullState where
  reg : RegState
  hw : SchedState
deriving DecidableEq, Repr

/-- One step of a registry-level run; the second component accumulates the handle
ids returned by createConnection, in call order. -/
def stepFull (acc : FullState × List Int) (op : RegOp) : FullState × List Int :=
  match op with
  | .create n p e t =>
    let made := createConnection n p e t acc.1.reg
    (⟨made.2, acc.1.hw⟩, acc.2 ++ [made.1])
  | .enableHW => (⟨acc.1.reg, (enableHardwareVsync acc.1.hw).1⟩, acc.2)
  | .disableHW mk => (⟨acc.1.reg, (disableHardwareVsync mk acc.1.hw).1⟩, acc.2)
  | .makeAvail b => (⟨acc.1.reg, makeHWSyncAvailable b acc.1.hw⟩, acc.2)

/-- Run of a registry-level operation sequence, collecting returned handle ids. -/
def runFull (ops : List RegOp) (st : FullState) : FullState × List Int :=
  ops.foldl stepFull (st, [])

/-- Initial combined state: sNextId starts at 0 (static member init), the registry
is empty and both controller flags are false. -/
def initFull : FullState := ⟨⟨0, []⟩, initState⟩

/-- Number of createConnection calls in an operation sequence. -/
def countCreates (ops : List RegOp) : Nat :=
  (ops.filter fun op => match op with | .create _ _ _ _ => true | _ => false).length

/-- Expected ids of a run of consecutive creations starting at counter value c. -/
def idsFrom (c : Int) (n : Nat) : List Int :=
  (List.range n).map fun (k : Nat) => wrap64 (c + (k : Int))

/-- Modelled from the spec: scheduler ARRAY_SIZE, the capacity of the global
fixed-size ring buffer of inter-frame intervals (SchedulerUtils is not among the
provided sources; the spec gives a small constant, e.g. 8). -/
def ARRAY_SIZE : Nat := 8

/-- Modelled from the spec: scheduler calculate_mean (SchedulerUtils is not among
the provided sources). The spec asks for the arithmetic mean of the samples; both
call sites in Scheduler.cpp store the result in an int64, so the mean is the
truncated integer quotient of the sum by the number of samples. -/
def calculate_mean (v : List Int) : Int :=
  v.sum.tdiv v.length

/-- Modelled from the spec: scheduler calculate_median (SchedulerUtils is not
among the provided sources): sort, take the middle element. -/
def calculate_median (v : List Int) : Int :=
  (v.insertionSort (· ≤ ·)).getD (v.length / 2) 0

/-- Modelled from the spec: scheduler calculate_mode (SchedulerUtils is not among
the provided sources): the most frequent value, the lowest value winning ties. -/
def calculate_mode (v : List Int) : Int :=
  let sorted := v.insertionSort (· ≤ ·)
  sorted.foldl (fun best x => if v.count x > v.count best then x else best)
    (sorted.headD 0)

/-- State of the global auto-timestamp analyzer: the previous frame timestamp, the
fixed-size ring buffer of inter-frame intervals and its write counter. -/
structure AnalyzerState where
  mPreviousFrameTimestamp : Int
  mTimeDifferences : List Int
  mCounter : Nat
deriving DecidableEq, Repr

/-- Modelled from the spec: the analyzer members start zero-initialized (the
member declarations live in Scheduler.h, which is not among the provided
sources): previous timestamp 0, ring buffer of ARRAY_SIZE zeros, counter 0. -/
def analyzerInit : AnalyzerState :=
  ⟨0, List.replicate ARRAY_SIZE 0, 0⟩

/-- Band classifier at the end of determineTimestampAverage: the mean selects the
60, 30 or 24 fps bucket, all bounds exclusive, anything else emits no bucket. -/
def classifyFps (mean : Int) : Option Nat :=
  if mean > 14 ∧ mean < 18 then some 60
  else if mean > 31 ∧ mean < 34 then some 30
  else if mean > 39 ∧ mean < 42 then some 24
  else none

/-- Scheduler determineTimestampAverage: auto timestamps are skipped entirely; the
difference to the previous frame timestamp is computed in milliseconds (int64
division, hence tdiv) and the previous timestamp is overwritten before the noise
check; differences below 10 or above 100 are dismissed; an in-band difference is
written into the ring buffer at position counter mod ARRAY_SIZE, the counter is
incremented and the new buffer mean is classified. The second component is the
emitted fps bucket, if any. -/
def determineTimestampAverage (isAutoTimestamp : Bool) (framePresentTime : Int)
    (s : AnalyzerState) : AnalyzerState × Option Nat :=
  if isAutoTimestamp then (s, none)
  else
    let differenceMs := (framePresentTime - s.mPreviousFrameTimestamp).tdiv 1000000
    let s1 : AnalyzerState := { s with mPreviousFrameTimestamp := framePresentTime }
    if differenceMs < 10 ∨ differenceMs > 100 then (s1, none)
    else
      let s2 : AnalyzerState :=
        { s1 with
          mTimeDifferences := s1.mTimeDifferences.set (s1.mCounter % ARRAY_SIZE) differenceMs,
          mCounter := s1.mCounter + 1 }
      (s2, classifyFps (calculate_mean s2.mTimeDifferences))

/-- Modelled from the spec: the LayerHistory capacity (the LayerHistory sources
are not provided; the spec fixes the size at construction). -/
def LAYER_HISTORY_SIZE : Nat := 64

/-- Modelled from the spec: LayerHistory, a bounded sequence of frame slots, each
mapping layer names to presentation timestamps; the head of the list is the
current (most recent) slot and slots age out as new ones are appended. -/
structure LayerHistory where
  slots : List (List (String × Int))
deriving DecidableEq, Repr

/-- Modelled from the spec: a freshly constructed LayerHistory holds
LAYER_HISTORY_SIZE empty slots. -/
def LayerHistory.initial : LayerHistory :=
  ⟨List.replicate LAYER_HISTORY_SIZE []⟩

/-- Modelled from the spec: LayerHistory insert puts the timestamp for the named
layer into the current slot. -/
def LayerHistory.insert (h : LayerHistory) (layerName : String) (presentTime : Int) :
    LayerHistory :=
  match h.slots with
  | [] => ⟨[[(layerName, presentTime)]]⟩
  | cur :: rest => ⟨((layerName, presentTime) :: cur) :: rest⟩

/-- Modelled from the spec: LayerHistory incrementCounter opens a fresh empty
current slot, the oldest slot aging out at capacity. -/
def LayerHistory.incrementCounter (h : LayerHistory) : LayerHistory :=
  ⟨([] :: h.slots).take LAYER_HISTORY_SIZE⟩

/-- Modelled from the spec: LayerHistory getSize, the number of indexable slots. -/
def LayerHistory.getSize (h : LayerHistory) : Nat :=
  h.slots.length

/-- Modelled from the spec: LayerHistory get, the slot index steps back from the
most recent slot (index 0 is the current slot). -/
def LayerHistory.get (h : LayerHistory) (i : Nat) : List (String × Int) :=
  h.slots.getD i []

/-- Body of the per-slot loop of determineLayerTimestampStats: entries of other
layers are skipped; for an entry of the inspected layer the difference to the
previously seen own timestamp is taken in milliseconds, kept only when strictly
between 10 and 60, and the entry becomes the new reference timestamp. The
accumulator carries (newestPresentTime, differencesMs). -/
def slotStep (layerName : String) (acc : Int × List Int) (layer : String × Int) :
    Int × List Int :=
  if layer.1 ≠ layerName then acc
  else
    let differenceMs := (acc.1 - layer.2).tdiv 1000000
    let diffs :=
      if differenceMs > 10 ∧ differenceMs < 60 then acc.2 ++ [differenceMs] else acc.2
    (layer.2, diffs)

/-- The walk of determineLayerTimestampStats over slots 1 .. getSize - 1, starting
from the incoming frame timestamp, returning the accumulated differences. -/
def historyWalk (layerName : String) (framePresentTime : Int) (h : LayerHistory) :
    List Int :=
  ((h.slots.drop 1).foldl (fun acc slot => slot.foldl (slotStep layerName) acc)
    (framePresentTime, [])).2

/-- Scheduler determineLayerTimestampStats: insert the timestamp, walk the history
for consecutive own-layer differences, and if any survive the noise filter emit
the (mean, median, mode) triple for that layer. -/
def determineLayerTimestampStats (layerName : String) (framePresentTime : Int)
    (h : LayerHistory) : LayerHistory × Option (Int × Int × Int) :=
  let h1 := h.insert layerName framePresentTime
  let differencesMs := historyWalk layerName framePresentTime h1
  if differencesMs.isEmpty then (h1, none)
  else
    (h1, some (calculate_mean differencesMs, calculate_median differencesMs,
      calculate_mode differencesMs))

/-- The worked example of the spec: layer A present times 0, 16, 33 and 49
milliseconds, one frame slot apart, the last call still pending. -/
def layerHistoryExample : LayerHistory :=
  (((((LayerHistory.initial.insert "A" 0).incrementCounter).insert
    "A" 16000000).incrementCounter.insert "A" 33000000).incrementCounter)

/-! ## Helper lemmas for the hardware sync controller -/

/-- Preservation of the invariant by one controller operation, for every
operation other than makeHWSyncAvailable false. -/
lemma hwInvariant_step (op : HWOp) (s : SchedState) (hop : op ≠ HWOp.makeAvail false)
    (hs : hwInvariant s = true) : hwInvariant (stepHW s op) = true := by
  rcases s with ⟨e, a⟩
  cases op with
  | enableHW => revert hs; cases e <;> cases a <;> decide
  | disableHW mk => revert hs; cases mk <;> cases e <;> cases a <;> decide
  | makeAvail b =>
    cases b
    · exact absurd rfl hop
    · revert hs; cases e <;> cases a <;> decide
  | resync nm ts =>
    revert hs
    cases nm <;> cases e <;> cases a <;>
      simp [stepHW, addResyncSample, enableHardwareVsync, disableHardwareVsync, hwInvariant]
  | present nm fence =>
    revert hs
    cases nm <;> cases e <;> cases a <;>
      simp [stepHW, addPresentFence, enableHardwareVsync, disableHardwareVsync, hwInvariant]
  | setPeriod p =>
    revert hs
    cases e <;> cases a <;>
      simp [stepHW, setVsyncPeriod, enableHardwareVsync, hwInvariant]

/-- Preservation of the invariant by a run avoiding makeHWSyncAvailable false. -/
lemma hwInvariant_run (ops : List HWOp) (s : SchedState)
    (hops : ∀ op ∈ ops, op ≠ HWOp.makeAvail false) (hs : hwInvariant s = true) :
    hwInvariant (runHW ops s) = true := by
  induction ops generalizing s with
  | nil => exact hs
  | cons op rest ih =>
    have hstep := hwInvariant_step op s (hops op (List.mem_cons_self op rest)) hs
    exact ih (stepHW s op) (fun o ho => hops o (List.mem_cons_of_mem op ho)) hstep

/-- An addResyncSample call whose DispSync answer is needsMore keeps the hardware
vsync enabled whenever it was enabled before the call. -/
lemma addResyncSample_keeps_enabled (s : SchedState) (ts : Int)
    (hs : s.mPrimaryHWVsyncEnabled = true) :
    (addResyncSample true ts s).1.mPrimaryHWVsyncEnabled = true := by
  rcases s with ⟨e, a⟩
  simp only at hs
  subst hs
  cases a <;> simp [addResyncSample, enableHardwareVsync]

/-! ## Claim theorems for the hardware sync controller -/

/-- C1 counterexample: the claimed invariant fails on the code: starting from the
initial state, the concrete sequence makeHWSyncAvailable true, enableHardwareVsync,
makeHWSyncAvailable false leaves hwVsyncEnabled true with hwVsyncAvailable false,
because makeHWSyncAvailable writes mHWVsyncAvailable without disabling. -/
theorem hwInvariant_broken_by_makeHWSyncAvailable_false :
    hwInvariant (runHW [.makeAvail true, .enableHW, .makeAvail false] initState) = false := by
  decide

/-- C1 (amended): for every sequence of controller operations from the initial
state that never calls makeHWSyncAvailable with argument false, the invariant
hwVsyncEnabled implies hwVsyncAvailable holds after the sequence (and hence after
each of its prefixes, each being such a sequence itself). -/
theorem hwInvariant_preserved_without_makeUnavailable (ops : List HWOp)
    (hops : ∀ op ∈ ops, op ≠ HWOp.makeAvail false) :
    hwInvariant (runHW ops initState) = true :=
  hwInvariant_run ops initState hops rfl

/-- Witness for the amended C1 theorem at a concrete operation sequence. -/
theorem hwInvariant_preserved_without_makeUnavailable_witness :
    hwInvariant (runHW [.makeAvail true, .enableHW, .resync true 100, .present false 7,
      .setPeriod 16666667, .disableHW true] initState) = true :=
  hwInvariant_preserved_without_makeUnavailable
    [.makeAvail true, .enableHW, .resync true 100, .present false 7,
      .setPeriod 16666667, .disableHW true] (by decide)

/-- C3: from any state with hwVsyncEnabled true, an addResyncSample call whose
DispSync answer is needsMore leaves hwVsyncEnabled true; in particular three
consecutive such calls keep hardware sync continuously enabled, with no
intermediate transition to disabled. -/
theorem addResyncSample_needsMore_keeps_enabled (s : SchedState) (ts1 ts2 ts3 : Int)
    (hs : s.mPrimaryHWVsyncEnabled = true) :
    (addResyncSample true ts1 s).1.mPrimaryHWVsyncEnabled = true ∧
    (addResyncSample true ts2
      (addResyncSample true ts1 s).1).1.mPrimaryHWVsyncEnabled = true ∧
    (addResyncSample true ts3 (addResyncSample true ts2
      (addResyncSample true ts1 s).1).1).1.mPrimaryHWVsyncEnabled = true := by
  have h1 := addResyncSample_keeps_enabled s ts1 hs
  have h2 := addResyncSample_keeps_enabled _ ts2 h1
  have h3 := addResyncSample_keeps_enabled _ ts3 h2
  exact ⟨h1, h2, h3⟩

/-- Witness for C3 at a concrete enabled state and concrete timestamps. -/
theorem addResyncSample_needsMore_keeps_enabled_witness :
    (addResyncSample true 16 ⟨true, true⟩).1.mPrimaryHWVsyncEnabled = true ∧
    (addResyncSample true 32
      (addResyncSample true 16 ⟨true, true⟩).1).1.mPrimaryHWVsyncEnabled = true ∧
    (addResyncSample true 48 (addResyncSample true 32
      (addResyncSample true 16 ⟨true, true⟩).1).1).1.mPrimaryHWVsyncEnabled = true :=
  addResyncSample_needsMore_keeps_enabled ⟨true, true⟩ 16 32 48 rfl

/-- C4: enableHardwareVsync is idempotent on the controller state, and so is
disableHardwareVsync false: calling either twice in a row yields the same
(hwVsyncEnabled, hwVsyncAvailable) pair as calling it once. -/
theorem enable_disable_idempotent (s : SchedState) :
    (enableHardwareVsync (enableHardwareVsync s).1).1 = (enableHardwareVsync s).1 ∧
    (disableHardwareVsync false (disableHardwareVsync false s).1).1 =
      (disableHardwareVsync false s).1 := by
  rcases s with ⟨e, a⟩
  cases e <;> cases a <;> exact ⟨rfl, rfl⟩

/-- C10: with hwVsyncEnabled false, addResyncSample makes no external call at all
(in particular the timestamp is never handed to DispSync) and returns the state
unchanged; addPresentFence, by contrast, hands the fence to DispSync on every
call, whatever the state. -/
theorem addResyncSample_guarded_addPresentFence_unconditional
    (s t : SchedState) (nm nm2 : Bool) (ts : Int) (fence : Nat)
    (hs : s.mPrimaryHWVsyncEnabled = false) :
    addResyncSample nm ts s = (s, []) ∧
    ExtCall.dispAddPresentFence fence ∈ (addPresentFence nm2 fence t).2 := by
  constructor
  · rcases s with ⟨e, a⟩
    simp only at hs
    subst hs
    rfl
  · simp [addPresentFence]

/-- Witness for C10 at concrete states, oracles, timestamp and fence. -/
theorem addResyncSample_guarded_addPresentFence_unconditional_witness :
    addResyncSample true 42 ⟨false, true⟩ = (⟨false, true⟩, []) ∧
    ExtCall.dispAddPresentFence 3 ∈ (addPresentFence false 3 ⟨true, true⟩).2 :=
  addResyncSample_guarded_addPresentFence_unconditional ⟨false, true⟩ ⟨true, true⟩
    true false 42 3 rfl

/-! ## Claim theorems for the connection registry -/

/-- C2: every administrative operation taking a connection handle performs the
uniform guard of the RETURN_IF_INVALID macros: on a null handle or an id that is
not a key of mConnections, the operation returns a null result or forwards
nothing, and the registry map is returned unchanged. -/
theorem invalid_handle_is_noop (r : RegState) (handle : Option Int)
    (displayType offset : Int) (connected : Bool)
    (hinv : invalidHandle r handle = true) :
    createDisplayEventConnection handle r = (none, r) ∧
    getEventThread handle r = (none, r) ∧
    getEventConnection handle r = (none, r) ∧
    hotplugReceived handle displayType connected r = ([], r) ∧
    onScreenAcquired handle r = ([], r) ∧
    onScreenReleased handle r = ([], r) ∧
    setPhaseOffset handle offset r = ([], r) ∧
    dump handle r = ([], r) := by
  cases handle with
  | none => exact ⟨rfl, rfl, rfl, rfl, rfl, rfl, rfl, rfl⟩
  | some id =>
    have hl : r.mConnections.lookup id = none := by
      simpa [invalidHandle, Option.isNone_iff_eq_none] using hinv
    refine ⟨?_, ?_, ?_, ?_, ?_, ?_, ?_, ?_⟩ <;>
      simp [createDisplayEventConnection, getEventThread, getEventConnection,
        hotplugReceived, onScreenAcquired, onScreenReleased, setPhaseOffset, dump, hl]

/-- Witness for C2: a one-entry registry and a handle id it does not hold. -/
theorem invalid_handle_is_noop_witness :
    createDisplayEventConnection (some 99) ⟨5, [(1, ⟨1, 2, 3⟩)]⟩ =
      (none, ⟨5, [(1, ⟨1, 2, 3⟩)]⟩) ∧
    getEventThread (some 99) ⟨5, [(1, ⟨1, 2, 3⟩)]⟩ = (none, ⟨5, [(1, ⟨1, 2, 3⟩)]⟩) ∧
    getEventConnection (some 99) ⟨5, [(1, ⟨1, 2, 3⟩)]⟩ = (none, ⟨5, [(1, ⟨1, 2, 3⟩)]⟩) ∧
    hotplugReceived (some 99) 0 true ⟨5, [(1, ⟨1, 2, 3⟩)]⟩ = ([], ⟨5, [(1, ⟨1, 2, 3⟩)]⟩) ∧
    onScreenAcquired (some 99) ⟨5, [(1, ⟨1, 2, 3⟩)]⟩ = ([], ⟨5, [(1, ⟨1, 2, 3⟩)]⟩) ∧
    onScreenReleased (some 99) ⟨5, [(1, ⟨1, 2, 3⟩)]⟩ = ([], ⟨5, [(1, ⟨1, 2, 3⟩)]⟩) ∧
    setPhaseOffset (some 99) 1000 ⟨5, [(1, ⟨1, 2, 3⟩)]⟩ = ([], ⟨5, [(1, ⟨1, 2, 3⟩)]⟩) ∧
    dump (some 99) ⟨5, [(1, ⟨1, 2, 3⟩)]⟩ = ([], ⟨5, [(1, ⟨1, 2, 3⟩)]⟩) :=
  invalid_handle_is_noop ⟨5, [(1, ⟨1, 2, 3⟩)]⟩ (some 99) 0 1000 true (by decide)

/-! ## Helper lemmas for the monotonic-ids property -/

/-- Values already inside the non-negative half of the int64 range are fixed by
the wraparound reduction. -/
lemma wrap64_small (x : Int) (h1 : 0 ≤ x) (h2 : x < 9223372036854775808) :
    wrap64 x = x := by
  unfold wrap64
  omega

/-- Wraparound reduction absorbs an inner reduction under addition. -/
lemma wrap64_shift (x y : Int) : wrap64 (wrap64 x + y) = wrap64 (x + y) := by
  unfold wrap64
  omega

/-- Unfolding of the expected-ids list by one creation. -/
lemma idsFrom_succ (c : Int) (n : Nat) :
    idsFrom c (n + 1) = wrap64 c :: idsFrom (c + 1) n := by
  unfold idsFrom
  rw [List.range_succ_eq_map]
  simp only [List.map_cons, List.map_map, Nat.cast_zero, add_zero]
  refine congrArg (wrap64 c :: ·) (List.map_congr_left fun k hk => ?_)
  simp only [Function.comp_apply, Nat.succ_eq_add_one]
  congr 1
  push_cast
  ring

/-- Counting creations: a creation at the head. -/
lemma countCreates_cons_create (n : String) (p : Int) (e t : Nat) (ops : List RegOp) :
    countCreates (RegOp.create n p e t :: ops) = countCreates ops + 1 := by
  simp [countCreates, List.filter_cons]

/-- Counting creations: an enable at the head. -/
lemma countCreates_cons_enableHW (ops : List RegOp) :
    countCreates (RegOp.enableHW :: ops) = countCreates ops := by
  simp [countCreates, List.filter_cons]

/-- Counting creations: a disable at the head. -/
lemma countCreates_cons_disableHW (mk : Bool) (ops : List RegOp) :
    countCreates (RegOp.disableHW mk :: ops) = countCreates ops := by
  simp [countCreates, List.filter_cons]

/-- Counting creations: an availability write at the head. -/
lemma countCreates_cons_makeAvail (b : Bool) (ops : List RegOp) :
    countCreates (RegOp.makeAvail b :: ops) = countCreates ops := by
  simp [countCreates, List.filter_cons]

/-- The id returned by createConnection is the current counter value. -/
lemma createConnection_fst (n : String) (p : Int) (e t : Nat) (r : RegState) :
    (createConnection n p e t r).1 = r.sNextId := rfl

/-- The counter after createConnection is the wrapped increment. -/
lemma createConnection_sNextId (n : String) (p : Int) (e t : Nat) (r : RegState) :
    (createConnection n p e t r).2.sNextId = wrap64 (r.sNextId + 1) := rfl

/-- Characterization of the ids returned by a run: with the counter currently at
the wrapped image of c, the run appends exactly the expected ids of its
creations. -/
lemma runFull_ids (ops : List RegOp) (st : FullState) (ids0 : List Int) (c : Int)
    (hc : st.reg.sNextId = wrap64 c) :
    (ops.foldl stepFull (st, ids0)).2 = ids0 ++ idsFrom c (countCreates ops) := by
  induction ops generalizing st ids0 c with
  | nil =>
    simp only [List.foldl_nil, countCreates, List.filter_nil, List.length_nil, idsFrom,
      List.range_zero, List.map_nil, List.append_nil]
  | cons op rest ih =>
    rw [List.foldl_cons]
    cases op with
    | create n p e t =>
      have hnext : (⟨(createConnection n p e t st.reg).2, st.hw⟩ : FullState).reg.sNextId
          = wrap64 (c + 1) := by
        rw [createConnection_sNextId, hc, wrap64_shift]
      have h2 := ih ⟨(createConnection n p e t st.reg).2, st.hw⟩
        (ids0 ++ [st.reg.sNextId]) (c + 1) hnext
      show (rest.foldl stepFull
        (⟨(createConnection n p e t st.reg).2, st.hw⟩, ids0 ++ [st.reg.sNextId])).2 = _
      rw [h2, hc, countCreates_cons_create, idsFrom_succ]
      simp
    | enableHW =>
      have h2 := ih ⟨st.reg, (enableHardwareVsync st.hw).1⟩ ids0 c hc
      show (rest.foldl stepFull (⟨st.reg, (enableHardwareVsync st.hw).1⟩, ids0)).2 = _
      rw [countCreates_cons_enableHW]
      exact h2
    | disableHW mk =>
      have h2 := ih ⟨st.reg, (disableHardwareVsync mk st.hw).1⟩ ids0 c hc
      show (rest.foldl stepFull (⟨st.reg, (disableHardwareVsync mk st.hw).1⟩, ids0)).2 = _
      rw [countCreates_cons_disableHW]
      exact h2
    | makeAvail b =>
      have h2 := ih ⟨st.reg, makeHWSyncAvailable b st.hw⟩ ids0 c hc
      show (rest.foldl stepFull (⟨st.reg, makeHWSyncAvailable b st.hw⟩, ids0)).2 = _
      rw [countCreates_cons_makeAvail]
      exact h2

/-! ## Claim theorems for the monotonic-ids property -/

/-- Counting creations in a run that is nothing but creations. -/
lemma countCreates_replicate_create (n : Nat) (name : String) (p : Int) (e t : Nat) :
    countCreates (List.replicate n (RegOp.create name p e t)) = n := by
  induction n with
  | zero => rfl
  | succ m ih => rw [List.replicate_succ, countCreates_cons_create, ih]

set_option maxRecDepth 10000 in
/-- C5 counterexample: the claim fails on the code for large N because sNextId is
a 64-bit counter: in a run of 2 to the 63rd plus one consecutive createConnection
calls, the last call returns the wrapped negative id, so the returned ids are not
strictly increasing. -/
theorem createConnection_counter_wraps_counterexample :
    ¬ (runFull (List.replicate 9223372036854775809 (RegOp.create "" 0 0 0))
        initFull).2.Pairwise (· < ·) := by
  intro hp
  have hids : (runFull (List.replicate 9223372036854775809 (RegOp.create "" 0 0 0))
      initFull).2 = idsFrom 0 9223372036854775809 := by
    have h := runFull_ids
      (List.replicate 9223372036854775809 (RegOp.create "" 0 0 0))
      initFull [] 0 (by decide)
    rw [countCreates_replicate_create, List.nil_append] at h
    exact h
  rw [hids, List.pairwise_iff_getElem] at hp
  have hlen : (idsFrom 0 9223372036854775809).length = 9223372036854775809 := by
    rw [idsFrom, List.length_map, List.length_range]
  have key := hp 0 9223372036854775808 (by rw [hlen]; omega) (by rw [hlen]; omega)
    (by omega)
  simp only [idsFrom, List.getElem_map, List.getElem_range] at key
  unfold wrap64 at key
  push_cast at key

/-- C5 (amended): for every operation sequence containing at most 2 to the 63rd
createConnection calls (the entire non-negative range of the int64 counter,
unreachable in a process lifetime), the returned handle ids are strictly
increasing with no repeats, regardless of interleaved enable and disable
operations; beyond that bound the counter wraps and ids recur. -/
theorem createConnection_ids_strictly_increasing (ops : List RegOp)
    (h : countCreates ops ≤ 9223372036854775808) :
    (runFull ops initFull).2.Pairwise (· < ·) ∧ (runFull ops initFull).2.Nodup := by
  have hids : (runFull ops initFull).2 = idsFrom 0 (countCreates ops) := by
    simpa [runFull] using runFull_ids ops initFull [] 0 (by decide)
  have heq : idsFrom 0 (countCreates ops)
      = (List.range (countCreates ops)).map (fun (k : Nat) => (k : Int)) := by
    unfold idsFrom
    refine List.map_congr_left fun k hk => ?_
    have hk2 : k < countCreates ops := List.mem_range.mp hk
    have hk3 : (k : Int) < 9223372036854775808 := by
      have hklt : (k : Int) < (countCreates ops : Int) := by exact_mod_cast hk2
      have h2 : (countCreates ops : Int) ≤ 9223372036854775808 := by exact_mod_cast h
      omega
    rw [zero_add]
    exact wrap64_small _ (Int.natCast_nonneg k) hk3
  have hpair : (runFull ops initFull).2.Pairwise (· < ·) := by
    rw [hids, heq]
    exact List.Pairwise.map _ (fun a b hab => by exact_mod_cast hab)
      (List.pairwise_lt_range _)
  exact ⟨hpair, hpair.imp ne_of_lt⟩

/-- Witness for the amended C5 theorem: two creations around an enable/disable
cycle return strictly increasing, repeat-free ids. -/
theorem createConnection_ids_strictly_increasing_witness :
    (runFull [RegOp.create "app" 1000 0 0, RegOp.makeAvail true, RegOp.enableHW,
      RegOp.create "sf" 2000 1 1, RegOp.disableHW false, RegOp.create "appSf" 0 2 2]
      initFull).2.Pairwise (· < ·) ∧
    (runFull [RegOp.create "app" 1000 0 0, RegOp.makeAvail true, RegOp.enableHW,
      RegOp.create "sf" 2000 1 1, RegOp.disableHW false, RegOp.create "appSf" 0 2 2]
      initFull).2.Nodup :=
  createConnection_ids_strictly_increasing
    [RegOp.create "app" 1000 0 0, RegOp.makeAvail true, RegOp.enableHW,
      RegOp.create "sf" 2000 1 1, RegOp.disableHW false, RegOp.create "appSf" 0 2 2]
    (by decide)

/-! ## Claim theorems for the global auto-timestamp analyzer -/

/-- C6: the band classifier of the global auto-timestamp analyzer emits the 60fps
bucket exactly for a mean strictly between 14 and 18, the 30fps bucket exactly
for a mean strictly between 31 and 34, the 24fps bucket exactly for a mean
strictly between 39 and 42, and no bucket otherwise; in particular a mean of 14
is unclassified (exclusive lower bound) and a mean of 16 classifies as 60fps. -/
theorem classifyFps_bands (mean : Int) :
    (classifyFps mean = some 60 ↔ 14 < mean ∧ mean < 18) ∧
    (classifyFps mean = some 30 ↔ 31 < mean ∧ mean < 34) ∧
    (classifyFps mean = some 24 ↔ 39 < mean ∧ mean < 42) ∧
    (classifyFps mean = none ↔
      ¬ ((14 < mean ∧ mean < 18) ∨ (31 < mean ∧ mean < 34) ∨ (39 < mean ∧ mean < 42))) ∧
    classifyFps 14 = none ∧ classifyFps 16 = some 60 := by
  refine ⟨?_, ?_, ?_, ?_, by decide, by decide⟩ <;>
    · unfold classifyFps
      split_ifs <;> simp_all <;> omega

/-- C7: a call of the global auto-timestamp analyzer with an auto timestamp
changes nothing; a non-auto call whose millisecond difference is below 10 or
above 100 leaves the ring buffer, the write counter, and hence the buffer mean
unchanged (only the previous-timestamp baseline moves); and only an in-band
difference is written into the ring buffer, overwriting the slot at the write
counter modulo the buffer size, with the counter incremented. -/
theorem determineTimestampAverage_effect (s : AnalyzerState) (ft : Int) :
    determineTimestampAverage true ft s = (s, none) ∧
    ((ft - s.mPreviousFrameTimestamp).tdiv 1000000 < 10 ∨
        (ft - s.mPreviousFrameTimestamp).tdiv 1000000 > 100 →
      determineTimestampAverage false ft s
        = ({ s with mPreviousFrameTimestamp := ft }, none)) ∧
    (¬ ((ft - s.mPreviousFrameTimestamp).tdiv 1000000 < 10 ∨
        (ft - s.mPreviousFrameTimestamp).tdiv 1000000 > 100) →
      determineTimestampAverage false ft s
        = ({ mPreviousFrameTimestamp := ft,
             mTimeDifferences := s.mTimeDifferences.set (s.mCounter % ARRAY_SIZE)
               ((ft - s.mPreviousFrameTimestamp).tdiv 1000000),
             mCounter := s.mCounter + 1 },
           classifyFps (calculate_mean (s.mTimeDifferences.set (s.mCounter % ARRAY_SIZE)
             ((ft - s.mPreviousFrameTimestamp).tdiv 1000000))))) := by
  refine ⟨rfl, fun h => ?_, fun h => ?_⟩ <;> simp [determineTimestampAverage, h]

/-- Witness for C7: from the zero-initialized analyzer, a 5 ms difference is
dismissed as noise with only the baseline moving, while a 33 ms difference is
written into the ring buffer. -/
theorem determineTimestampAverage_effect_witness :
    determineTimestampAverage false 5000000 analyzerInit
      = ({ analyzerInit with mPreviousFrameTimestamp := 5000000 }, none) ∧
    determineTimestampAverage false 33000000 analyzerInit
      = ({ mPreviousFrameTimestamp := 33000000,
           mTimeDifferences := analyzerInit.mTimeDifferences.set
             (analyzerInit.mCounter % ARRAY_SIZE)
             ((33000000 - analyzerInit.mPreviousFrameTimestamp).tdiv 1000000),
           mCounter := analyzerInit.mCounter + 1 },
         classifyFps (calculate_mean (analyzerInit.mTimeDifferences.set
           (analyzerInit.mCounter % ARRAY_SIZE)
           ((33000000 - analyzerInit.mPreviousFrameTimestamp).tdiv 1000000)))) :=
  ⟨(determineTimestampAverage_effect analyzerInit 5000000).2.1 (by decide),
   (determineTimestampAverage_effect analyzerInit 33000000).2.2 (by decide)⟩

/-- C9: every non-auto call of the global auto-timestamp analyzer overwrites the
stored previous-frame timestamp with the incoming timestamp; the write happens
before the noise check, so the equation holds also for samples the noise check
then discards, which therefore still become the baseline of the next
difference. -/
theorem previousFrameTimestamp_always_updated (s : AnalyzerState) (ft : Int) :
    (determineTimestampAverage false ft s).1.mPreviousFrameTimestamp = ft := by
  by_cases h : (ft - s.mPreviousFrameTimestamp).tdiv 1000000 < 10 ∨
      (ft - s.mPreviousFrameTimestamp).tdiv 1000000 > 100 <;>
    simp [determineTimestampAverage, h]

/-! ## Helper lemmas for the per-layer statistics walk -/

/-- The slot step keeps every accumulated difference strictly inside the 10 to 60
millisecond band. -/
lemma slotStep_all_inBand (name : String) (layer : String × Int) (acc : Int × List Int)
    (h : acc.2.all (fun d => decide (10 < d ∧ d < 60)) = true) :
    ((slotStep name acc layer).2.all (fun d => decide (10 < d ∧ d < 60))) = true := by
  dsimp only [slotStep]
  split_ifs with h1 h2
  · exact h
  · simp only [List.all_append, h, Bool.true_and, List.all_cons, List.all_nil,
      Bool.and_true, decide_eq_true_eq]
    exact h2
  · exact h

/-- Folding the slot step over one slot keeps every accumulated difference inside
the band. -/
lemma slot_foldl_all_inBand (name : String) (slot : List (String × Int))
    (acc : Int × List Int) (h : acc.2.all (fun d => decide (10 < d ∧ d < 60)) = true) :
    ((slot.foldl (slotStep name) acc).2.all (fun d => decide (10 < d ∧ d < 60))) = true := by
  induction slot generalizing acc with
  | nil => exact h
  | cons layer rest ih =>
    exact ih (slotStep name acc layer) (slotStep_all_inBand name layer acc h)

/-- Folding the walk over any slot list keeps every accumulated difference inside
the band. -/
lemma slots_foldl_all_inBand (name : String) (slots : List (List (String × Int)))
    (acc : Int × List Int) (h : acc.2.all (fun d => decide (10 < d ∧ d < 60)) = true) :
    ((slots.foldl (fun acc2 slot => slot.foldl (slotStep name) acc2) acc).2.all
      (fun d => decide (10 < d ∧ d < 60))) = true := by
  induction slots generalizing acc with
  | nil => exact h
  | cons slot rest ih =>
    exact ih (slot.foldl (slotStep name) acc) (slot_foldl_all_inBand name slot acc h)

/-! ## Claim theorems for the per-layer statistics -/

/-- C8 counterexample: at the worked example of the claim (layer A at 0, 16, 33
and 49 milliseconds) the emitted triple is (16, 16, 16): the mean the code emits
is the int64 quotient 16, not the exact mean 49/3, which is approximately 16.33
as the claim states. -/
theorem layer_stats_integer_mean_counterexample :
    (determineLayerTimestampStats "A" 49000000 layerHistoryExample).2
      = some (16, 16, 16) ∧ (16 : ℚ) ≠ 49 / 3 :=
  ⟨by decide, by norm_num⟩

/-- C8 (amended): the per-layer statistics walk computes each difference relative
to the previously seen entry for the same layer, keeps only differences strictly
between 10 and 60 ms, and, when the resulting list is non-empty, emits its mean,
median and mode; inserting timestamps for layer A at 0, 16, 33 and 49 ms
produces the consecutive own-entry differences 16, 17 and 16 (not the distances
to the incoming frame) and emits integer mean 16 (the exact mean 49/3, about
16.33, truncated by the int64 arithmetic), median 16 and mode 16. -/
theorem layer_stats_walk :
    (∀ (layerName : String) (framePresentTime : Int) (h : LayerHistory),
      (historyWalk layerName framePresentTime h).all
        (fun d => decide (10 < d ∧ d < 60)) = true) ∧
    historyWalk "A" 49000000 (layerHistoryExample.insert "A" 49000000) = [16, 17, 16] ∧
    (determineLayerTimestampStats "A" 49000000 layerHistoryExample).2
      = some (16, 16, 16) :=
  ⟨fun layerName framePresentTime h =>
    slots_foldl_all_inBand layerName (h.slots.drop 1) (framePresentTime, []) rfl,
   by decide, by decide⟩

end AndroidSched
